import Mathlib

/-!
Verification of the interaction execution and result-classification engine
of shelldoc (pkg/interaction/interaction.go), shallowly embedded in Lean.
Go slices of strings become `List String`, the shell exit code becomes `Int`,
and a Go `error` value becomes `Option String` (the error's description).
String lengths and prefixes are taken character-wise; all strings involved
in the claims are ASCII, where this agrees with Go's byte-wise `len`.
-/

namespace Shelldoc

/-- Result code constants, from the Go iota block in interaction.go. -/
def NewInteraction : Nat := 0

/-- ResultExecutionError: an error executing the command, not with the command itself. -/
def ResultExecutionError : Nat := 1

/-- ResultError: the command exited with a non-zero exit code. -/
def ResultError : Nat := 2

/-- ResultMatch: the output directly matched the expected output. -/
def ResultMatch : Nat := 3

/-- ResultRegexMatch: the output matched the alternative regex. -/
def ResultRegexMatch : Nat := 4

/-- ResultMismatch: the output did not match expectations in any way. -/
def ResultMismatch : Nat := 5

/-- The Interaction record: one interaction with the shell. -/
structure Interaction where
  Cmd : String
  Response : List String
  Caption : String
  ResultCode : Nat
  Comment : String
deriving DecidableEq

/-- Result of the external shell capability ExecuteCommand:
output lines, exit code, and an optional error (its description). -/
structure ShellResult where
  output : List String
  rc : Int
  err : Option String
deriving DecidableEq

/-- compareRegex from interaction.go: the alternative-regex hook, a stub that
always reports no match. -/
def Interaction.compareRegex (_interaction : Interaction) (_output : List String) : Bool :=
  false

/-- elideString from interaction.go: truncate text longer than the given
length, keeping length - 3 characters and appending an ellipsis. -/
def elideString (text : String) (length : Nat) : String :=
  if length > 6 ∧ text.length > length then (text.take (length - 3)) ++ "..."
  else text

/-- Describe from interaction.go: the caption if set, otherwise a string
synthesized from the command and the expected response. -/
def Interaction.Describe (i : Interaction) : String :=
  if i.Caption.length = 0 then
    let expect0 := elideString (String.intercalate ", " i.Response) 30
    let expect := if expect0.length = 0 then "(no response expected)"
                  else "(expecting \"" ++ expect0 ++ "\")"
    "command \"" ++ elideString i.Cmd 30 ++ "\" " ++ expect
  else i.Caption

/-- Result from interaction.go: a human-readable description of the result.
The Go switch has no case for ResultError, so it falls through to "WTF". -/
def Interaction.Result (i : Interaction) : String :=
  if i.ResultCode = NewInteraction then "not executed"
  else if i.ResultCode = ResultExecutionError then "ERROR (result not evaluated)"
  else if i.ResultCode = ResultMatch then
    (if i.Response.length = 0 then "PASS (execution successful)" else "PASS (match)")
  else if i.ResultCode = ResultRegexMatch then "PASS (regex match)"
  else if i.ResultCode = ResultMismatch then "FAIL (mismatch)"
  else "WTF"

/-- HasFailure from interaction.go: true if the interaction failed
(not on execution errors). -/
def Interaction.HasFailure (i : Interaction) : Bool :=
  i.ResultCode = ResultError || i.ResultCode = ResultMismatch

/-- New from interaction.go: an empty interaction with a Caption
(other fields take Go zero values). -/
def New (caption : String) : Interaction :=
  { Cmd := "", Response := [], Caption := caption,
    ResultCode := NewInteraction, Comment := "" }

/-- Execute from interaction.go: run the command through the shell capability
(its result is passed in), classify the outcome into ResultCode and Comment,
and return the updated interaction together with the wrapped error that Go
returns to the caller (none on all non-error paths). -/
def Interaction.Execute (i : Interaction) (res : ShellResult) :
    Interaction × Option String :=
  match res.err with
  | some e =>
      ({ i with ResultCode := ResultExecutionError, Comment := e },
       some ("unable to execute command: " ++ e))
  | none =>
      if res.rc ≠ 0 then
        ({ i with ResultCode := ResultError,
                  Comment := "command exited with non-zero exit code " ++ toString res.rc },
         none)
      else if res.output = i.Response then
        ({ i with ResultCode := ResultMatch, Comment := "" }, none)
      else if i.compareRegex res.output then
        ({ i with ResultCode := ResultRegexMatch }, none)
      else
        ({ i with ResultCode := ResultMismatch, Comment := "" }, none)

/-- C1: when the shell capability reports no error, exit code 0, and output
exactly equal to the expected response, Execute sets ResultCode = ResultMatch
and clears the comment; with an empty expected response, Result then renders
"PASS (execution successful)". -/
theorem execute_exact_match (i : Interaction) (res : ShellResult)
    (herr : res.err = none) (hrc : res.rc = 0) (hout : res.output = i.Response) :
    (i.Execute res).1.ResultCode = ResultMatch ∧
    (i.Execute res).1.Comment = "" ∧
    (i.Response = [] → (i.Execute res).1.Result = "PASS (execution successful)") := by
  simp only [Interaction.Execute, herr, hrc, hout]
  refine ⟨by simp, by simp, ?_⟩
  intro hresp
  simp [Interaction.Result, ResultMatch, NewInteraction, ResultExecutionError, hresp]

/-- Witness for C1 at a concrete interaction and shell result. -/
theorem execute_exact_match_witness :
    ((Interaction.mk "echo true" [] "" NewInteraction "").Execute
      ⟨[], 0, none⟩).1.Result = "PASS (execution successful)" :=
  (execute_exact_match (Interaction.mk "echo true" [] "" NewInteraction "")
    ⟨[], 0, none⟩ rfl rfl rfl).2.2 rfl

/-- C2: Execute returns a (wrapped) error exactly when the shell capability
itself reports an error; on that path it sets ResultCode = ResultExecutionError
and stores the error description in Comment, and on every other path it
returns none. -/
theorem execute_error_channel (i : Interaction) (res : ShellResult) :
    ((i.Execute res).2.isSome = res.err.isSome) ∧
    (∀ e, res.err = some e →
      (i.Execute res).1.ResultCode = ResultExecutionError ∧
      (i.Execute res).1.Comment = e ∧
      (i.Execute res).2 = some ("unable to execute command: " ++ e)) ∧
    (res.err = none → (i.Execute res).2 = none) := by
  cases h : res.err with
  | none =>
      simp only [Interaction.Execute, h]
      refine ⟨?_, by simp, ?_⟩
      · split_ifs <;> simp
      · intro _
        split_ifs <;> simp
  | some e =>
      simp [Interaction.Execute, h]

/-- Witness for C2 at a concrete interaction and an erroring shell capability. -/
theorem execute_error_channel_witness :
    ((Interaction.mk "ls" [] "" NewInteraction "").Execute
        ⟨[], 0, some "spawn failed"⟩).1.ResultCode = ResultExecutionError ∧
    ((Interaction.mk "ls" [] "" NewInteraction "").Execute
        ⟨[], 0, some "spawn failed"⟩).1.Comment = "spawn failed" ∧
    ((Interaction.mk "ls" [] "" NewInteraction "").Execute
        ⟨[], 0, some "spawn failed"⟩).2
      = some ("unable to execute command: " ++ "spawn failed") :=
  (execute_error_channel (Interaction.mk "ls" [] "" NewInteraction "")
    ⟨[], 0, some "spawn failed"⟩).2.1 "spawn failed" rfl

/-- C3: when the shell capability reports no error but a non-zero exit code,
Execute sets ResultCode = ResultError and the comment names the actual exit
code, regardless of the output, and returns no error. -/
theorem execute_command_error (i : Interaction) (res : ShellResult)
    (herr : res.err = none) (hrc : res.rc ≠ 0) :
    (i.Execute res).1.ResultCode = ResultError ∧
    (i.Execute res).1.Comment
      = "command exited with non-zero exit code " ++ toString res.rc ∧
    (i.Execute res).2 = none := by
  simp [Interaction.Execute, herr, hrc]

/-- Witness for C3 at a concrete interaction, output present, exit code 2. -/
theorem execute_command_error_witness :
    (((Interaction.mk "grep x y" ["some output"] "" NewInteraction "").Execute
        ⟨["some output"], 2, none⟩).1.ResultCode = ResultError) ∧
    (((Interaction.mk "grep x y" ["some output"] "" NewInteraction "").Execute
        ⟨["some output"], 2, none⟩).1.Comment
      = "command exited with non-zero exit code " ++ toString (2 : Int)) ∧
    (((Interaction.mk "grep x y" ["some output"] "" NewInteraction "").Execute
        ⟨["some output"], 2, none⟩).2 = none) :=
  execute_command_error (Interaction.mk "grep x y" ["some output"] "" NewInteraction "")
    ⟨["some output"], 2, none⟩ rfl (by decide)

/-- C10: Execute changes only ResultCode and Comment; Cmd, Response and
Caption are unchanged, for every interaction and every shell result. -/
theorem execute_frame (i : Interaction) (res : ShellResult) :
    (i.Execute res).1.Cmd = i.Cmd ∧
    (i.Execute res).1.Response = i.Response ∧
    (i.Execute res).1.Caption = i.Caption := by
  cases h : res.err with
  | none =>
      simp only [Interaction.Execute, h]
      split_ifs <;> simp
  | some e => simp [Interaction.Execute, h]

/-- C4 counterexample: for an interaction with ResultCode = ResultError
(command exited non-zero), Result renders "WTF", which is not an
"ERROR"-style label comparable to the ResultExecutionError label. -/
theorem result_commandError_cex :
    (Interaction.mk "false" [] "" ResultError "").Result = "WTF" ∧
    (Interaction.mk "false" [] "" ResultError "").Result
      ≠ "ERROR (result not evaluated)" := by
  constructor
  · rfl
  · decide

/-- C4 amended: for every interaction whose ResultCode is ResultError,
Result falls through the Go switch (which has no case for ResultError)
and returns the fallback placeholder "WTF". -/
theorem result_commandError (i : Interaction) (h : i.ResultCode = ResultError) :
    i.Result = "WTF" := by
  simp [Interaction.Result, h, ResultError, NewInteraction, ResultExecutionError,
    ResultMatch, ResultRegexMatch, ResultMismatch]

/-- Witness for amended C4 at a concrete interaction. -/
theorem result_commandError_witness :
    (Interaction.mk "exit 1" ["out"] "cap" ResultError "c").Result = "WTF" :=
  result_commandError (Interaction.mk "exit 1" ["out"] "cap" ResultError "c") rfl

/-- C5: HasFailure is true exactly when ResultCode is ResultError or
ResultMismatch, and is false for ResultExecutionError, NewInteraction,
ResultMatch and ResultRegexMatch. -/
theorem hasFailure_iff (i : Interaction) :
    (i.HasFailure = true ↔
      (i.ResultCode = ResultError ∨ i.ResultCode = ResultMismatch)) ∧
    (i.ResultCode = ResultExecutionError → i.HasFailure = false) ∧
    (i.ResultCode = NewInteraction → i.HasFailure = false) ∧
    (i.ResultCode = ResultMatch → i.HasFailure = false) ∧
    (i.ResultCode = ResultRegexMatch → i.HasFailure = false) := by
  refine ⟨by simp [Interaction.HasFailure], ?_, ?_, ?_, ?_⟩ <;>
    intro h <;>
    simp [Interaction.HasFailure, h, ResultExecutionError, NewInteraction,
      ResultMatch, ResultRegexMatch, ResultError, ResultMismatch]

/-- Witness for C5 at a concrete interaction with an execution error. -/
theorem hasFailure_iff_witness :
    (Interaction.mk "ls" [] "" ResultExecutionError "boom").HasFailure = false :=
  (hasFailure_iff (Interaction.mk "ls" [] "" ResultExecutionError "boom")).2.1 rfl

/-- C6: Result maps NewInteraction to "not executed", ResultExecutionError to
"ERROR (result not evaluated)", ResultMatch to "PASS (execution successful)"
or "PASS (match)" depending on whether the expected response is empty,
ResultRegexMatch to "PASS (regex match)" and ResultMismatch to
"FAIL (mismatch)". -/
theorem result_table (i : Interaction) :
    (i.ResultCode = NewInteraction → i.Result = "not executed") ∧
    (i.ResultCode = ResultExecutionError →
      i.Result = "ERROR (result not evaluated)") ∧
    (i.ResultCode = ResultMatch → i.Response = [] →
      i.Result = "PASS (execution successful)") ∧
    (i.ResultCode = ResultMatch → i.Response ≠ [] → i.Result = "PASS (match)") ∧
    (i.ResultCode = ResultRegexMatch → i.Result = "PASS (regex match)") ∧
    (i.ResultCode = ResultMismatch → i.Result = "FAIL (mismatch)") := by
  refine ⟨?_, ?_, ?_, ?_, ?_, ?_⟩ <;> intro h
  · simp [Interaction.Result, h, NewInteraction]
  · simp [Interaction.Result, h, NewInteraction, ResultExecutionError]
  · intro h2
    simp [Interaction.Result, h, NewInteraction, ResultExecutionError,
      ResultMatch, h2]
  · intro h2
    simp [Interaction.Result, h, NewInteraction, ResultExecutionError,
      ResultMatch, List.length_eq_zero, h2]
  · simp [Interaction.Result, h, NewInteraction, ResultExecutionError,
      ResultMatch, ResultRegexMatch]
  · simp [Interaction.Result, h, NewInteraction, ResultExecutionError,
      ResultMatch, ResultRegexMatch, ResultMismatch]

/-- Witness for C6 at a concrete matched interaction with a non-empty
expected response. -/
theorem result_table_witness :
    (Interaction.mk "echo a" ["a"] "" ResultMatch "").Result = "PASS (match)" :=
  (result_table (Interaction.mk "echo a" ["a"] "" ResultMatch "")).2.2.2.1
    rfl (by decide)

/-- C7 counterexample: an interaction whose command succeeds (exit 0) but
whose output differs from the expected response is classified ResultMismatch,
and its Comment is set to the empty string, not to a non-empty explanation
(here the pre-existing comment "stale" is even overwritten with ""). -/
theorem mismatch_comment_cex :
    (((Interaction.mk "echo hi" ["expected"] "" NewInteraction "stale").Execute
        ⟨["actual"], 0, none⟩).1.ResultCode = ResultMismatch) ∧
    (((Interaction.mk "echo hi" ["expected"] "" NewInteraction "stale").Execute
        ⟨["actual"], 0, none⟩).1.Comment = "") := by
  decide

/-- C7 amended: when the command runs with exit code 0 but the output differs
from the expected response, Execute sets ResultCode = ResultMismatch and
clears Comment to the empty string; Comment is empty on both the clean-match
and the mismatch paths. -/
theorem execute_mismatch (i : Interaction) (res : ShellResult)
    (herr : res.err = none) (hrc : res.rc = 0) (hout : res.output ≠ i.Response) :
    (i.Execute res).1.ResultCode = ResultMismatch ∧
    (i.Execute res).1.Comment = "" := by
  simp [Interaction.Execute, herr, hrc, hout, Interaction.compareRegex]

/-- Witness for amended C7 at a concrete mismatching interaction. -/
theorem execute_mismatch_witness :
    (((Interaction.mk "echo hi" ["Hi"] "" NewInteraction "").Execute
        ⟨["hi"], 0, none⟩).1.ResultCode = ResultMismatch) ∧
    (((Interaction.mk "echo hi" ["Hi"] "" NewInteraction "").Execute
        ⟨["hi"], 0, none⟩).1.Comment = "") :=
  execute_mismatch (Interaction.mk "echo hi" ["Hi"] "" NewInteraction "")
    ⟨["hi"], 0, none⟩ rfl rfl (by decide)

/-- C8: the alternative regex hook compareRegex reports no match for every
output, and consequently Execute always leaves ResultCode in
{ResultExecutionError, ResultError, ResultMatch, ResultMismatch}: it never
sets ResultRegexMatch. -/
theorem execute_never_regexMatch (i : Interaction) (res : ShellResult) :
    (i.compareRegex res.output = false) ∧
    ((i.Execute res).1.ResultCode = ResultExecutionError ∨
     (i.Execute res).1.ResultCode = ResultError ∨
     (i.Execute res).1.ResultCode = ResultMatch ∨
     (i.Execute res).1.ResultCode = ResultMismatch) := by
  refine ⟨rfl, ?_⟩
  cases h : res.err with
  | none =>
      simp only [Interaction.Execute, h]
      split_ifs <;> simp_all [Interaction.compareRegex]
  | some e => simp [Interaction.Execute, h]

/-- A string has length zero exactly when it is empty. -/
theorem string_length_eq_zero_iff (s : String) : s.length = 0 ↔ s = "" := by
  cases s with
  | mk data => simp [String.length, String.ext_iff]

/-- elideString never turns a non-empty string into an empty one or vice
versa: its result has length zero exactly when the input does. -/
theorem elideString_length_eq_zero (t : String) (n : Nat) :
    (elideString t n).length = 0 ↔ t.length = 0 := by
  unfold elideString
  split_ifs with hc
  · obtain ⟨h6, hlen⟩ := hc
    have h3 : ("..." : String).length = 3 := rfl
    simp only [String.length_append, h3]
    omega
  · exact Iff.rfl

/-- C9 counterexample: the command "echo hello world this is long" is 29
characters, below the 30-character threshold, so elideString leaves it
unchanged and Describe (with empty caption and empty response) contains the
full command with no ellipsis, not the truncated preview. -/
theorem describe_no_truncation_cex :
    ("echo hello world this is long" : String).length = 29 ∧
    elideString "echo hello world this is long" 30 = "echo hello world this is long" ∧
    (Interaction.mk "echo hello world this is long" [] "" NewInteraction "").Describe
      = "command \"echo hello world this is long\" (no response expected)" ∧
    (Interaction.mk "echo hello world this is long" [] "" NewInteraction "").Describe
      ≠ "command \"echo hello world this is lo...\" (no response expected)" := by
  refine ⟨rfl, rfl, rfl, ?_⟩
  decide

/-- C9 amended: Describe returns the caption whenever it is non-empty; with an
empty caption it synthesizes the string from the command and the expected
response, each passed through elideString at the fixed threshold 30, which
truncates to 27 characters plus "..." exactly when the text is longer than 30
characters and otherwise returns it unchanged, with the literal placeholder
"(no response expected)" when the (joined) expected response is empty; in
particular the 29-character command "echo hello world this is long" with empty
caption and response is rendered in full, untruncated. -/
theorem describe_spec (i : Interaction) :
    (i.Caption ≠ "" → i.Describe = i.Caption) ∧
    (i.Caption = "" → i.Response = [] →
      i.Describe = "command \"" ++ elideString i.Cmd 30 ++ "\" (no response expected)") ∧
    (i.Caption = "" → (String.intercalate ", " i.Response).length ≠ 0 →
      i.Describe = "command \"" ++ elideString i.Cmd 30 ++ "\" " ++
        ("(expecting \"" ++ elideString (String.intercalate ", " i.Response) 30 ++ "\")")) ∧
    (∀ t : String, t.length > 30 → elideString t 30 = t.take 27 ++ "...") ∧
    (∀ t : String, t.length ≤ 30 → elideString t 30 = t) ∧
    (i.Caption = "" → i.Cmd = "echo hello world this is long" → i.Response = [] →
      i.Describe = "command \"echo hello world this is long\" (no response expected)") := by
  refine ⟨?_, ?_, ?_, ?_, ?_, ?_⟩
  · intro h
    have hlen : i.Caption.length ≠ 0 := by
      simpa [string_length_eq_zero_iff] using h
    simp [Interaction.Describe, hlen]
  · intro h hresp
    have h0 : String.intercalate ", " ([] : List String) = "" := rfl
    have e1 : elideString "" 30 = "" := rfl
    have e2 : ("" : String).length = 0 := rfl
    simp [Interaction.Describe, h, hresp, h0, e1, e2]
    rw [String.append_assoc]
    congr 2
  · intro h hjoin
    have e2 : ("" : String).length = 0 := rfl
    have hne : ¬(elideString (String.intercalate ", " i.Response) 30).length = 0 := by
      rw [elideString_length_eq_zero]
      exact hjoin
    simp only [Interaction.Describe, h, e2, if_pos]
    rw [if_neg hne]
  · intro t ht
    simp [elideString, ht]
  · intro t ht
    simp only [elideString]
    rw [if_neg]
    intro hcontra
    omega
  · intro h hcmd hresp
    simp only [Interaction.Describe, h, hcmd, hresp]
    rfl

/-- Witness for amended C9: a non-empty caption is returned as is. -/
theorem describe_spec_witness :
    (Interaction.mk "echo true" [] "run echo" NewInteraction "").Describe
      = "run echo" :=
  (describe_spec (Interaction.mk "echo true" [] "run echo" NewInteraction "")).1
    (by decide)

end Shelldoc
